import Mathlib

/-!
# Verification of the Penrose exterior-point optimizer core

This development shallowly embeds the optimizer module of the repository
(`step`, `minimize`, `lbfgs`, `lbfgsInner`, `awLineSearch2`, `epConverged2`,
`unconstrainedConverged2`, `containsNaN`, `evalEnergyOnCustom`) and proves the
spec's claims about it.

Modelling conventions:
* JavaScript numbers are modelled by `JSNum`: an exact rational payload for
  finite values plus the IEEE special values `+Infinity`, `-Infinity` and
  `NaN`, with the IEEE tag-propagation rules for arithmetic and the
  JS comparison semantics (every comparison involving `NaN` is `false`).
  Finite arithmetic is exact (no rounding); no claim settled here depends on
  float rounding.  The signed zero `-0` is not distinguished from `0`; no
  modelled code path depends on the sign of zero.
* `Math.sqrt` is modelled by `Rat.sqrt` on the finite payload (an exact-or-
  approximate rational square root) plus the IEEE special cases; the claims
  use it only through expressions that appear identically on both the spec
  side and the code side, or at inputs (such as `0`) where it is exact.
* eigen `nx1` column-vector matrices are modelled as `List JSNum`; `colVec`
  and `vecList` (conversions to and from the matrix type) become the
  identity, `matAdd`/`matSub` act elementwise, `.mul` is scalar scaling and
  the product of the scaled identity `γI` with a column vector is `γ • v`.
* TypeScript `throw` is modelled with `Except String`; a thrown error
  propagates out of `minimize` and `step` exactly as the exception does.
-/

attribute [local semireducible] Rat.add Rat.sub Rat.mul Rat.inv Rat.ofScientific

namespace Penrose

/-- A JavaScript number: exact rational finite part plus IEEE special values. -/
inductive JSNum where
  | num : ℚ → JSNum
  | posInf : JSNum
  | negInf : JSNum
  | nan : JSNum
  deriving DecidableEq, Repr

instance (n : Nat) : OfNat JSNum n := ⟨.num n⟩

/-- IEEE addition on the tags, exact rational addition on finite values. -/
def jsAdd : JSNum → JSNum → JSNum
  | .nan, _ => .nan
  | _, .nan => .nan
  | .posInf, .negInf => .nan
  | .negInf, .posInf => .nan
  | .posInf, _ => .posInf
  | _, .posInf => .posInf
  | .negInf, _ => .negInf
  | _, .negInf => .negInf
  | .num a, .num b => .num (a + b)

/-- IEEE negation. -/
def jsNeg : JSNum → JSNum
  | .nan => .nan
  | .posInf => .negInf
  | .negInf => .posInf
  | .num a => .num (-a)

/-- IEEE subtraction: `a - b = a + (-b)`. -/
def jsSub (a b : JSNum) : JSNum := jsAdd a (jsNeg b)

/-- IEEE multiplication: `±∞ * 0 = NaN`, sign rules for infinities. -/
def jsMul : JSNum → JSNum → JSNum
  | .nan, _ => .nan
  | _, .nan => .nan
  | .posInf, .posInf => .posInf
  | .posInf, .negInf => .negInf
  | .negInf, .posInf => .negInf
  | .negInf, .negInf => .posInf
  | .posInf, .num b => if 0 < b then .posInf else if b < 0 then .negInf else .nan
  | .num a, .posInf => if 0 < a then .posInf else if a < 0 then .negInf else .nan
  | .negInf, .num b => if 0 < b then .negInf else if b < 0 then .posInf else .nan
  | .num a, .negInf => if 0 < a then .negInf else if a < 0 then .posInf else .nan
  | .num a, .num b => .num (a * b)

/-- IEEE division (signed zero ignored: a finite value divided by `0` gets the
sign of the numerator, `0 / 0 = NaN`). -/
def jsDiv : JSNum → JSNum → JSNum
  | .nan, _ => .nan
  | _, .nan => .nan
  | .posInf, .posInf => .nan
  | .posInf, .negInf => .nan
  | .negInf, .posInf => .nan
  | .negInf, .negInf => .nan
  | .posInf, .num b => if b < 0 then .negInf else .posInf
  | .negInf, .num b => if b < 0 then .posInf else .negInf
  | .num _, .posInf => .num 0
  | .num _, .negInf => .num 0
  | .num a, .num b =>
      if b = 0 then (if 0 < a then .posInf else if a < 0 then .negInf else .nan)
      else .num (a / b)

/-- JS `<`: any comparison with `NaN` is `false`. -/
def jsLt : JSNum → JSNum → Bool
  | .nan, _ => false
  | _, .nan => false
  | .posInf, _ => false
  | .negInf, .negInf => false
  | .negInf, _ => true
  | .num _, .posInf => true
  | .num _, .negInf => false
  | .num a, .num b => a < b

/-- JS `<=`: any comparison with `NaN` is `false`. -/
def jsLe : JSNum → JSNum → Bool
  | .nan, _ => false
  | _, .nan => false
  | .posInf, .posInf => true
  | .posInf, _ => false
  | .negInf, _ => true
  | .num _, .posInf => true
  | .num _, .negInf => false
  | .num a, .num b => a ≤ b

/-- JS `>`. -/
def jsGt (a b : JSNum) : Bool := jsLt b a

/-- JS `>=`. -/
def jsGe (a b : JSNum) : Bool := jsLe b a

/-- JS `Math.abs`. -/
def jsAbs : JSNum → JSNum
  | .nan => .nan
  | .posInf => .posInf
  | .negInf => .posInf
  | .num a => .num |a|

/-- JS `Number.isNaN` on a number. -/
def jsIsNaN : JSNum → Bool
  | .nan => true
  | _ => false

/-- JS `Math.sqrt`: `NaN` for negative or `NaN` arguments, `+∞` for `+∞`;
on finite non-negative rationals modelled by `Rat.sqrt` (see file header). -/
def jsSqrt : JSNum → JSNum
  | .nan => .nan
  | .posInf => .posInf
  | .negInf => .nan
  | .num a => if a < 0 then .nan else .num (Rat.sqrt a)

/-! ## Vector helpers

Modelled from the spec: the helpers `dot`, `normList`, `subv`, `addv`,
`scalev`, `negv`, `repeat` live in `utils/OtherUtils`, which is outside the
given sources; the spec uses them as the Euclidean inner product `⟨·,·⟩`, the
Euclidean norm `‖·‖`, elementwise vector sum/difference, scalar scaling,
negation and a constant vector.  `repeat` is named `repeatList` here because
`repeat` is a Lean keyword. -/

/-- Modelled from the spec: Euclidean inner product of two equal-length
vectors (`utils/OtherUtils.dot`). -/
def dot (xs ys : List JSNum) : JSNum :=
  (List.zipWith jsMul xs ys).foldl jsAdd (.num 0)

/-- Modelled from the spec: Euclidean norm (`utils/OtherUtils.normList`). -/
def normList (xs : List JSNum) : JSNum := jsSqrt (dot xs xs)

/-- Modelled from the spec: elementwise difference (`utils/OtherUtils.subv`). -/
def subv (xs ys : List JSNum) : List JSNum := List.zipWith jsSub xs ys

/-- Modelled from the spec: elementwise sum (`utils/OtherUtils.addv`). -/
def addv (xs ys : List JSNum) : List JSNum := List.zipWith jsAdd xs ys

/-- Modelled from the spec: scalar scaling (`utils/OtherUtils.scalev`). -/
def scalev (c : JSNum) (xs : List JSNum) : List JSNum := xs.map (jsMul c)

/-- Modelled from the spec: elementwise negation (`utils/OtherUtils.negv`). -/
def negv (xs : List JSNum) : List JSNum := xs.map jsNeg

/-- Modelled from the spec: constant vector (`utils/OtherUtils.repeat`). -/
def repeatList (n : Nat) (v : JSNum) : List JSNum := List.replicate n v

/-! ## Module-level constants of the optimizer source -/

/-- `const weightGrowthFactor = 10` — growth factor for constraint weights. -/
def weightGrowthFactor : JSNum := .num 10

/-- `const constraintWeight = 10e4` — the fixed constraint scale; as a JS
literal `10e4 = 10 * 10^4 = 100000 = 1e5`.  Kept as a rational because it is
used as a value node of the autodiff energy graph. -/
def constraintWeight : ℚ := 100000

/-- `const epStop = 1e-3` — EP (outer) convergence tolerance. -/
def epStop : JSNum := .num (1 / 1000)

/-- `const EPSD = 1e-11` — division-by-zero guard in L-BFGS. -/
def EPSD : JSNum := .num (1 / 10 ^ 11)

/-- `const uoStop = 1e-2` — unconstrained (inner) convergence tolerance. -/
def uoStop : JSNum := .num (1 / 100)

/-- `const USE_LINE_SEARCH = true`. -/
def USE_LINE_SEARCH : Bool := true

/-- `const BREAK_EARLY = true`. -/
def BREAK_EARLY : Bool := true

/-- `unconstrainedConverged2(normGrad)`: `normGrad < uoStop`. -/
def unconstrainedConverged2 (normGrad : JSNum) : Bool := jsLt normGrad uoStop

/-- `epConverged2(xs0, xs1, fxs0, fxs1)`:
`normList(subv(xs1, xs0)) < epStop || Math.abs(fxs1 - fxs0) < epStop`. -/
def epConverged2 (xs0 xs1 : List JSNum) (fxs0 fxs1 : JSNum) : Bool :=
  jsLt (normList (subv xs1 xs0)) epStop || jsLt (jsAbs (jsSub fxs1 fxs0)) epStop

/-! ## `containsNaN` -/

/-- A JavaScript value as seen by `Number.isNaN`: either a string (an array
property key produced by a `for...in` loop) or a number. -/
inductive JSValue where
  | str : String → JSValue
  | numv : JSNum → JSValue
  deriving DecidableEq

/-- JS `Number.isNaN`: `true` only when the argument is the *number* `NaN`;
it performs no coercion, so on a string it is always `false`. -/
def numberIsNaN : JSValue → Bool
  | .str _ => false
  | .numv n => jsIsNaN n

/-- `containsNaN(numberList)` from the source.  Its loop
`for (var n in numberList)` binds `n` to the enumerable property *keys* of
the array — the index strings `"0"`, `"1"`, ... — not to the elements, and
then tests `Number.isNaN(n)` on those strings. -/
def containsNaN (numberList : List JSNum) : Bool :=
  ((List.range numberList.length).map (fun i => JSValue.str (toString i))).any
    numberIsNaN

/-! ## L-BFGS memory and estimator -/

/-- `LbfgsParams` (types/state): bounded s/y history (most recent first), the
optional last state and gradient (eigen column vectors, modelled as lists),
the step counter and the configured memory size. -/
structure LbfgsParams where
  lastState : Option (List JSNum)
  lastGrad : Option (List JSNum)
  s_list : List (List JSNum)
  y_list : List (List JSNum)
  numUnconstrSteps : Nat
  memSize : Nat
  deriving DecidableEq, Repr

/-- Modelled from the spec: `defaultLbfgsParams` (engine/EngineUtils, outside
the given sources) is the fresh-phase memory — no last state or gradient,
empty s/y history, step counter 0 — together with the configured memory size,
whose concrete value (17 here) no claim in this development depends on. -/
def defaultLbfgsParams : LbfgsParams :=
  { lastState := none, lastGrad := none, s_list := [], y_list := [],
    numUnconstrSteps := 0, memSize := 17 }

/-- `colVec`: conversion of a JS array to an eigen nx1 column vector; the
identity in this model. -/
def colVec (xs : List JSNum) : List JSNum := xs

/-- `vecList`: conversion of an eigen nx1 column vector back to a JS array;
the identity in this model. -/
def vecList (xs : List JSNum) : List JSNum := xs

/-- `dotVec(v, w) = v.transpose().matMul(w).get(0, 0)`, the inner product of
two column vectors. -/
def dotVec (v w : List JSNum) : JSNum := dot v w

/-- `calculate_rho(s, y) = 1.0 / (dotVec(y, s) + EPSD)` (inside `lbfgsInner`). -/
def calculate_rho (s y : List JSNum) : JSNum :=
  jsDiv (.num 1) (jsAdd (dotVec y s) EPSD)

/-- `pull_q_back` (inside `lbfgsInner`): one step of the backward pass of the
two-loop recursion; appends `alpha_i` on the right (`alphas2.concat`). -/
def pull_q_back (acc : List JSNum × List JSNum)
    (curr : JSNum × List JSNum × List JSNum) : List JSNum × List JSNum :=
  let q_i_plus_1 := acc.1
  let alphas2 := acc.2
  let rho_i := curr.1
  let s_i := curr.2.1
  let y_i := curr.2.2
  let alpha_i := jsMul rho_i (dotVec s_i q_i_plus_1)
  let q_i := subv q_i_plus_1 (scalev alpha_i y_i)
  (q_i, alphas2 ++ [alpha_i])

/-- `estimate_hess(y_km1, s_km1)` (inside `lbfgsInner`): the scalar
`γ = (s·y)/(y·y + EPSD)`; the source builds the matrix `γI`, modelled here by
the scalar `γ`, applied to a column vector by `scalev`. -/
def estimate_hess (y_km1 s_km1 : List JSNum) : JSNum :=
  jsDiv (dotVec s_km1 y_km1) (jsAdd (dotVec y_km1 y_km1) EPSD)

/-- `push_r_forward` (inside `lbfgsInner`): one step of the forward pass of
the two-loop recursion. -/
def push_r_forward (r_i : List JSNum)
    (curr : (JSNum × JSNum) × List JSNum × List JSNum) : List JSNum :=
  let rho_i := curr.1.1
  let alpha_i := curr.1.2
  let s_i := curr.2.1
  let y_i := curr.2.2
  let beta_i := jsMul rho_i (dotVec y_i r_i)
  addv r_i (scalev (jsSub alpha_i beta_i) s_i)

/-- `lbfgsInner(grad_fx_k, ss, ys)`: the standard two-loop recursion.
`ys[0]`/`ss[0]` are `headD []`; the source indexes an array that is nonempty
whenever `memSize ≥ 1` (the only case exercised by the claims). -/
def lbfgsInner (grad_fx_k : List JSNum) (ss ys : List (List JSNum)) :
    List JSNum :=
  let rhos := List.zipWith calculate_rho ss ys
  let q_k := grad_fx_k
  let back := (rhos.zip (ss.zip ys)).foldl pull_q_back (q_k, [])
  let q_k_minus_m := back.1
  let alphas := back.2
  let h_0_k := estimate_hess (ys.headD []) (ss.headD [])
  let r_k_minus_m := scalev h_0_k q_k_minus_m
  let inputs := ((rhos.zip alphas).zip (ss.zip ys)).reverse
  inputs.foldl push_r_forward r_k_minus_m

/-- The record returned by `lbfgs`. -/
structure LbfgsOutput where
  gradfxsPreconditioned : List JSNum
  updatedLbfgsInfo : LbfgsParams
  deriving DecidableEq, Repr

/-- `lbfgs(xs, gradfxs, lbfgsInfo)`: outer loop of L-BFGS.  First call of a
phase returns the raw gradient and seeds the memory; subsequent calls build
`s`/`y`, truncate to `memSize`, run `lbfgsInner`, and reset the memory when
`descentDirCheck = -(r · grad) > 0`; the `throw` on an invalid memory state
is `Except.error`. -/
def lbfgs (xs gradfxs : List JSNum) (lbfgsInfo : LbfgsParams) :
    Except String LbfgsOutput :=
  if lbfgsInfo.numUnconstrSteps = 0 then
    .ok { gradfxsPreconditioned := gradfxs,
          updatedLbfgsInfo :=
            { lbfgsInfo with
              lastState := some (colVec xs), lastGrad := some (colVec gradfxs),
              s_list := [], y_list := [], numUnconstrSteps := 1 } }
  else
    match lbfgsInfo.lastState, lbfgsInfo.lastGrad with
    | some x_km1, some grad_fx_km1 =>
      let x_k := colVec xs
      let grad_fx_k := colVec gradfxs
      let km1 := lbfgsInfo.numUnconstrSteps
      let ss_km2 := lbfgsInfo.s_list
      let ys_km2 := lbfgsInfo.y_list
      let s_km1 := subv x_k x_km1
      let y_km1 := subv grad_fx_k grad_fx_km1
      let ss_km1 := (s_km1 :: ss_km2).take lbfgsInfo.memSize
      let ys_km1 := (y_km1 :: ys_km2).take lbfgsInfo.memSize
      let gradPreconditioned := lbfgsInner grad_fx_k ss_km1 ys_km1
      let descentDirCheck := jsMul (.num (-1)) (dotVec gradPreconditioned grad_fx_k)
      if jsGt descentDirCheck (.num 0) then
        .ok { gradfxsPreconditioned := gradfxs,
              updatedLbfgsInfo :=
                { lbfgsInfo with
                  lastState := some x_k, lastGrad := some grad_fx_k,
                  s_list := [], y_list := [], numUnconstrSteps := 1 } }
      else
        .ok { gradfxsPreconditioned := vecList gradPreconditioned,
              updatedLbfgsInfo :=
                { lbfgsInfo with
                  lastState := some x_k, lastGrad := some grad_fx_k,
                  s_list := ss_km1, y_list := ys_km1,
                  numUnconstrSteps := km1 + 1 } }
    | _, _ => .error "Invalid L-BFGS state"

/-! ## Armijo–Wolfe line search (`awLineSearch2`) -/

/-- `const c1 = 0.001` — Armijo constant. -/
def c1 : JSNum := .num (1 / 1000)

/-- `const c2 = 0.9` — Wolfe constant. -/
def c2 : JSNum := .num (9 / 10)

/-- `const minInterval = 10e-10` — as a JS literal `10e-10 = 10 * 10^(-10)`,
i.e. `1e-9`. -/
def minInterval : JSNum := .num (1 / 10 ^ 9)

/-- `duf(u)(zs) = dot(u, gradf(zs))`, applied to the descent direction. -/
def dufDescent (gradf : List JSNum → List JSNum) (descentDir zs : List JSNum) :
    JSNum :=
  dot descentDir (gradf zs)

/-- `armijo(ti)`: `f(xs0 + ti·d) <= fxs0 + c1 * ti * dufAtx0`
(the right-hand product associates to the left, as in JS). -/
def armijo (f : List JSNum → JSNum) (xs0 descentDir : List JSNum)
    (fxs0 dufAtx0 ti : JSNum) : Bool :=
  jsLe (f (addv xs0 (scalev ti descentDir)))
    (jsAdd fxs0 (jsMul (jsMul c1 ti) dufAtx0))

/-- `weakWolfe(ti)`: `dufDescent(xs0 + ti·d) >= c2 * dufAtx0`; the source sets
`wolfe = weakWolfe`. -/
def weakWolfe (gradf : List JSNum → List JSNum) (xs0 descentDir : List JSNum)
    (dufAtx0 ti : JSNum) : Bool :=
  jsGe (dufDescent gradf descentDir (addv xs0 (scalev ti descentDir)))
    (jsMul c2 dufAtx0)

/-- `shouldStop(numUpdates, ai, bi)`:
`Math.abs(bi - ai) < minInterval || numUpdates > maxSteps`. -/
def shouldStop (maxSteps numUpdates : Nat) (ai bi : JSNum) : Bool :=
  jsLt (jsAbs (jsSub bi ai)) minInterval || decide (numUpdates > maxSteps)

/-- The `while (true)` loop of `awLineSearch2`, at loop state
`(a, b, t, i)`.  Termination (C4) is by the measure `maxSteps + 1 - i`: every
continuing iteration increments `i`, and `shouldStop` fires once
`i > maxSteps`. -/
def awLoop (f : List JSNum → JSNum) (gradf : List JSNum → List JSNum)
    (xs0 descentDir : List JSNum) (fxs0 dufAtx0 : JSNum) (maxSteps : Nat)
    (a b t : JSNum) (i : Nat) : JSNum :=
  if shouldStop maxSteps i a b then t
  else
    let isArmijo := armijo f xs0 descentDir fxs0 dufAtx0 t
    let isWolfe := weakWolfe gradf xs0 descentDir dufAtx0 t
    if isArmijo = false then
      let b1 := t
      let t1 := if jsLt b1 .posInf then jsDiv (jsAdd a b1) (.num 2)
                else jsMul (.num 2) a
      awLoop f gradf xs0 descentDir fxs0 dufAtx0 maxSteps a b1 t1 (i + 1)
    else if isWolfe = false then
      let a1 := t
      let t1 := if jsLt b .posInf then jsDiv (jsAdd a1 b) (.num 2)
                else jsMul (.num 2) a1
      awLoop f gradf xs0 descentDir fxs0 dufAtx0 maxSteps a1 b t1 (i + 1)
    else t
termination_by maxSteps + 1 - i
decreasing_by
  all_goals
    simp only [shouldStop, Bool.or_eq_true, decide_eq_true_eq, not_or] at *
    omega

/-- `awLineSearch2(xs0, f, gradf, gradfxs0, fxs0, maxSteps = 10)`: descent
direction `-gradfxs0` (already preconditioned by the caller), bracket
initialized to `[a, b] = [0, +∞)` and trial `t = 1.0`. -/
def awLineSearch2 (xs0 : List JSNum) (f : List JSNum → JSNum)
    (gradf : List JSNum → List JSNum) (gradfxs0 : List JSNum) (fxs0 : JSNum)
    (maxSteps : Nat := 10) : JSNum :=
  let descentDir := negv gradfxs0
  let dufAtx0 := dufDescent gradf descentDir xs0
  awLoop f gradf xs0 descentDir fxs0 dufAtx0 maxSteps (.num 0) .posInf
    (.num 1) 0

/-! ## `minimize` -/

/-- The `OptInfo` record returned by `minimize`. -/
structure OptInfo where
  xs : List JSNum
  energyVal : JSNum
  normGrad : JSNum
  newLbfgsInfo : LbfgsParams
  gradient : List JSNum
  gradientPreconditioned : List JSNum
  failed : Bool
  deriving DecidableEq, Repr

/-- The `while (i < numSteps)` loop of `minimize`, structurally recursive on
the remaining iteration budget; the mutable locals
`(xs, fxs, gradfxs, gradientPreconditioned, normGradfxs, t)` are threaded
through, and the two `throw Error(...)` guards and the error thrown by
`lbfgs` become `Except.error`.  A `break` returns the current locals with the
`failed` flag of the branch taken. -/
def minimizeLoop (f : List JSNum → JSNum) (gradf : List JSNum → List JSNum) :
    Nat → List JSNum → JSNum → List JSNum → List JSNum → JSNum → JSNum →
    LbfgsParams → Except String OptInfo
  | 0, xs, fxs, gradfxs, gradientPreconditioned, normGradfxs, _t, info =>
      .ok { xs := xs, energyVal := fxs, normGrad := normGradfxs,
            newLbfgsInfo := info, gradient := gradfxs,
            gradientPreconditioned := gradientPreconditioned, failed := false }
  | n + 1, xs, _fxs, _gradfxs, _gpre, _normG, t, info =>
      if containsNaN xs then .error "NaN in xs"
      else
        let fxs := f xs
        let gradfxs := gradf xs
        if containsNaN gradfxs then .error "NaN in gradfxs"
        else
          match lbfgs xs gradfxs info with
          | .error e => .error e
          | .ok res =>
            let gradientPreconditioned := res.gradfxsPreconditioned
            let info1 := res.updatedLbfgsInfo
            let normGradfxs := dot gradfxs gradientPreconditioned
            if BREAK_EARLY && unconstrainedConverged2 normGradfxs then
              .ok { xs := xs, energyVal := fxs, normGrad := normGradfxs,
                    newLbfgsInfo := info1, gradient := gradfxs,
                    gradientPreconditioned := gradientPreconditioned,
                    failed := false }
            else
              let t1 := if USE_LINE_SEARCH then
                          awLineSearch2 xs f gradf gradientPreconditioned fxs
                        else t
              let normGrad := normList gradfxs
              if jsIsNaN fxs || jsIsNaN normGrad then
                .ok { xs := xs, energyVal := fxs, normGrad := normGradfxs,
                      newLbfgsInfo := info1, gradient := gradfxs,
                      gradientPreconditioned := gradientPreconditioned,
                      failed := true }
              else
                minimizeLoop f gradf n
                  (List.zipWith (fun x g => jsSub x (jsMul t1 g)) xs
                    gradientPreconditioned)
                  fxs gradfxs gradientPreconditioned normGradfxs t1 info1

/-- `minimize(xs0, f, gradf, lbfgsInfo, varyingPaths, numSteps)`: initial
locals `fxs = 0.0`, `gradfxs = repeat(len, 0)` with its copy as the initial
preconditioned gradient, `normGradfxs = 0.0`, `t = 0.0001`.  The
`varyingPaths` argument of the source is used only for logging and is
dropped here. -/
def minimize (xs0 : List JSNum) (f : List JSNum → JSNum)
    (gradf : List JSNum → List JSNum) (lbfgsInfo : LbfgsParams)
    (numSteps : Nat) : Except String OptInfo :=
  minimizeLoop f gradf numSteps xs0 (.num 0)
    (repeatList xs0.length (.num 0)) (repeatList xs0.length (.num 0))
    (.num 0) (.num (1 / 10000)) lbfgsInfo

/-! ## The optimizer state machine (`step`) -/

/-- The status tag of the optimization state machine. -/
inductive OptStatus where
  | NewIter
  | UnconstrainedRunning
  | UnconstrainedConverged
  | EPConverged
  | Error
  deriving DecidableEq, Repr

/-- Modelled from the spec: `initConstraintWeight` (engine/EngineUtils,
outside the given sources), the "small starting constant" the weight is
initialized to; its concrete value (1/100 here) is not depended on by any
claim. -/
def initConstraintWeight : JSNum := .num (1 / 100)

/-- The optimizer fields of `Params` (types/state) used by `step`.  The
compiled closures `objective`/`gradient` (a function of the weight) and
`currObjective`/`currGradient` (bound to the current weight) are modelled as
total function fields: every claim settled here acts on states that have
already been compiled (`genOptProblem`, which builds them through the
autodiff engine, is outside the modelled projection).  Fields that only feed
logging or the excluded rendering layer are omitted. -/
structure Params where
  weight : JSNum
  UOround : Nat
  EPround : Nat
  optStatus : OptStatus
  lbfgsInfo : LbfgsParams
  lastUOstate : List JSNum
  lastUOenergy : JSNum
  lastEPstate : List JSNum
  lastEPenergy : JSNum
  lastGradient : List JSNum
  lastGradientPreconditioned : List JSNum
  objective : JSNum → List JSNum → JSNum
  gradient : JSNum → List JSNum → List JSNum
  currObjective : List JSNum → JSNum
  currGradient : List JSNum → List JSNum

/-- The optimization `State`, projected to the fields the optimizer core
reads or writes: the varying-variable vector and the optimizer params.  The
translation/shape fields consumed by the excluded rendering layer are
outside the projection. -/
structure State where
  varyingValues : List JSNum
  params : Params

/-- The tail of `step` after the `switch`: when `evaluate` is set the updated
variable vector is written back into the returned state (the accompanying
`insertVaryings`/`evalShapes`/`colorUninitShapes`/`colorUninitText` calls
touch only the translation and shape fields, which are outside the modelled
projection); when `evaluate` is unset the returned state keeps the incoming
variable vector. -/
def finishStep (state : State) (p : Params) (xs : List JSNum)
    (evaluate : Bool) : State :=
  if evaluate then { varyingValues := xs, params := p }
  else { state with params := p }

/-- `step(state, steps, evaluate = true)`: the exterior-point state machine.
`NewIter` is modelled in its compiled branch (`objective`/`gradient`
present); a thrown error from `minimize` propagates as `Except.error`.  In
the `UnconstrainedRunning` case the source sets the status twice when
`minimize` reports failure — first by the convergence test, then to `Error`
on the early return, which also skips the `evaluate` block so the incoming
variable vector is kept. -/
def step (state : State) (steps : Nat) (evaluate : Bool := true) :
    Except String State :=
  let weight := state.params.weight
  let xs := state.varyingValues
  match state.params.optStatus with
  | .NewIter =>
      .ok { state with params :=
            { state.params with
              weight := initConstraintWeight, UOround := 0, EPround := 0,
              optStatus := .UnconstrainedRunning,
              lbfgsInfo := defaultLbfgsParams } }
  | .UnconstrainedRunning =>
      match minimize xs state.params.currObjective state.params.currGradient
          state.params.lbfgsInfo steps with
      | .error e => .error e
      | .ok res =>
        let xs1 := res.xs
        let p1 := { state.params with
          lastUOstate := xs1, lastUOenergy := res.energyVal,
          UOround := state.params.UOround + 1, lbfgsInfo := res.newLbfgsInfo,
          lastGradient := res.gradient,
          lastGradientPreconditioned := res.gradientPreconditioned }
        let p2 := if unconstrainedConverged2 res.normGrad then
            { p1 with optStatus := .UnconstrainedConverged,
                      lbfgsInfo := defaultLbfgsParams }
          else
            { p1 with optStatus := .UnconstrainedRunning }
        if res.failed then
          .ok { state with params := { p2 with optStatus := .Error } }
        else
          .ok (finishStep state p2 xs1 evaluate)
  | .UnconstrainedConverged =>
      let p := state.params
      let p1 :=
        if 1 < p.EPround ∧
            epConverged2 p.lastEPstate p.lastUOstate p.lastEPenergy
              p.lastUOenergy = true then
          { p with optStatus := .EPConverged }
        else
          let w1 := jsMul weightGrowthFactor weight
          { p with
            optStatus := .UnconstrainedRunning
            weight := w1
            EPround := p.EPround + 1
            UOround := 0
            currObjective := p.objective w1
            currGradient := p.gradient w1 }
      let p2 := { p1 with
                  lastEPstate := p1.lastUOstate
                  lastEPenergy := p1.lastUOenergy }
      .ok (finishStep state p2 xs evaluate)
  | .EPConverged => .ok state
  | .Error => .ok state

/-! ## The compiled energy (`evalEnergyOnCustom`) -/

/-- Modelled from the spec: `fns.toPenalty` (engine/Autodiff, outside the
given sources) — the one-sided penalty transform
`penalty(c) = max(c, 0)^2`. -/
def toPenalty (c : ℚ) : ℚ := max c 0 ^ 2

/-- Modelled from the spec: `ops.vsum` (engine/Autodiff, outside the given
sources) — the sum of a list of graph values. -/
def vsum (xs : List ℚ) : ℚ := xs.sum

/-- Value semantics of the energy graph built by `evalEnergyOnCustom`, with
the graph constructors `add`/`mul`/`varOf`/`markInput` evaluated over exact
rationals: given the evaluated objective-term energies `objEngs` and raw
constraint-term energies `constrEngs`, the source builds
`objEng = ops.vsum(objEngs)`,
`constrEng = ops.vsum(constrEngs.map(fns.toPenalty))`, and the overall node
`add(objEng, mul(constrEng, mul(constrWeightNode, epWeightNode)))`, where
`constrWeightNode` carries the constant `constraintWeight` and
`epWeightNode` is the addressable penalty-weight input carrying `w`. -/
def evalEnergyOnCustom (objEngs constrEngs : List ℚ) (w : ℚ) : ℚ :=
  vsum objEngs + vsum (constrEngs.map toPenalty) * (constraintWeight * w)

/-! ## Helper lemmas -/

/-- `containsNaN` tests `Number.isNaN` only on index strings, so it is
constantly `false`. -/
theorem containsNaN_eq_false (xs : List JSNum) : containsNaN xs = false := by
  simp [containsNaN, List.any_map, numberIsNaN, Function.comp]

/-- The only error `lbfgs` can produce is the invalid-memory throw. -/
theorem lbfgs_error_eq (xs gradfxs : List JSNum) (info : LbfgsParams)
    (e : String) (h : lbfgs xs gradfxs info = .error e) :
    e = "Invalid L-BFGS state" := by
  unfold lbfgs at h
  split at h
  · simp at h
  · split at h
    · dsimp only at h
      split at h <;> simp at h
    · simp only [Except.error.injEq] at h
      exact h.symm

/-- Any error produced by the `minimize` loop is the invalid-memory throw
propagated from `lbfgs`, whatever the carried locals. -/
theorem minimizeLoop_error_invalid (f : List JSNum → JSNum)
    (gradf : List JSNum → List JSNum) (n : Nat) (xs : List JSNum)
    (fxs : JSNum) (gradfxs gpre : List JSNum) (normG t : JSNum)
    (info : LbfgsParams) (e : String)
    (h : minimizeLoop f gradf n xs fxs gradfxs gpre normG t info = .error e) :
    e = "Invalid L-BFGS state" := by
  induction n generalizing xs fxs gradfxs gpre normG t info with
  | zero => simp [minimizeLoop] at h
  | succ n ih =>
    rw [minimizeLoop] at h
    simp only [containsNaN_eq_false, Bool.false_eq_true, if_false] at h
    rcases hl : lbfgs xs (gradf xs) info with e1 | res
    · rw [hl] at h
      simp only [Except.error.injEq] at h
      rw [← h]
      exact lbfgs_error_eq _ _ _ _ hl
    · rw [hl] at h
      dsimp only at h
      split at h
      · simp at h
      · split at h
        · simp at h
        · exact ih _ _ _ _ _ _ _ h

/-! ## C9 -/

/-- C9: for every list of numbers `containsNaN` returns `false` — even on
lists containing `NaN`, because its `for...in` loop iterates over the string
indices of the array rather than its elements — so the `"NaN in xs"` and
`"NaN in gradfxs"` throwing guards at the top of each `minimize` iteration
are never triggered: `minimize` never returns either error. -/
theorem containsNaN_never_detects :
    (∀ xs : List JSNum, containsNaN xs = false) ∧
    ∀ (f : List JSNum → JSNum) (gradf : List JSNum → List JSNum)
      (x0 : List JSNum) (info : LbfgsParams) (n : Nat),
      minimize x0 f gradf info n ≠ .error "NaN in xs" ∧
      minimize x0 f gradf info n ≠ .error "NaN in gradfxs" := by
  refine ⟨containsNaN_eq_false, fun f gradf x0 info n => ⟨fun h => ?_, fun h => ?_⟩⟩ <;>
    simpa using minimizeLoop_error_invalid f gradf n x0 _ _ _ _ _ info _ h

/-! ## C7 -/

/-- C7: for every state whose status is `EPConverged` or `Error`, `step`
returns the state unchanged (the very same state record, hence identical
variable vector and status), so repeated calls on a terminal state are
no-ops. -/
theorem step_terminal_noop (state : State) (steps : Nat) (evaluate : Bool)
    (h : state.params.optStatus = .EPConverged ∨
         state.params.optStatus = .Error) :
    step state steps evaluate = .ok state := by
  rcases h with h | h <;> · unfold step; rw [h]

/-- A concrete compiled, terminal state used as a witness. -/
def terminalState : State :=
  { varyingValues := [.num 1, .num 2]
    params :=
      { weight := .num 100
        UOround := 0
        EPround := 3
        optStatus := .EPConverged
        lbfgsInfo := defaultLbfgsParams
        lastUOstate := [.num 1, .num 2]
        lastUOenergy := .num 0
        lastEPstate := [.num 1, .num 2]
        lastEPenergy := .num 0
        lastGradient := [.num 0, .num 0]
        lastGradientPreconditioned := [.num 0, .num 0]
        objective := fun _ _ => .num 0
        gradient := fun _ xs => xs.map (fun _ => .num 0)
        currObjective := fun _ => .num 0
        currGradient := fun xs => xs.map (fun _ => .num 0) } }

/-- Witness for C7 at a concrete terminal state. -/
theorem step_terminal_noop_witness :
    (terminalState.params.optStatus = .EPConverged ∨
       terminalState.params.optStatus = .Error) ∧
    step terminalState 5 true = .ok terminalState :=
  ⟨Or.inl rfl, step_terminal_noop terminalState 5 true (Or.inl rfl)⟩

/-! ## C6 -/

/-- C6: the compiled overall energy node equals
`objEnergy + constrEnergy * constantConstraintScale * penaltyWeight`, where
`objEnergy` is the sum of the objective-term energies, `constrEnergy` is the
sum of the constraint-term energies each passed through the one-sided
penalty transform `max(c, 0)^2`, the constant constraint scale is exactly
`1e5` (the source literal `10e4`), and `penaltyWeight` is the addressable
weight input `w`. -/
theorem evalEnergyOnCustom_overall_energy
    (objEngs constrEngs : List ℚ) (w : ℚ) :
    evalEnergyOnCustom objEngs constrEngs w =
      objEngs.sum + (constrEngs.map (fun c => max c 0 ^ 2)).sum * 100000 * w := by
  have h : toPenalty = fun c : ℚ => max c 0 ^ 2 := rfl
  simp only [evalEnergyOnCustom, vsum, constraintWeight, h]
  ring

/-! ## C4 -/

/-- Objective used by the line-search counterexample and tests: constantly
`1`, so the Armijo sufficient-decrease condition always fails. -/
def cexF : List JSNum → JSNum := fun _ => .num 1

/-- Gradient used by the line-search counterexample and tests: constantly
`[1]`. -/
def cexGradf : List JSNum → List JSNum := fun _ => [.num 1]

/-- C4 counterexample.  Run `awLineSearch2` on `xs0 = [0]`,
`gradfxs0 = [1]` (so `descentDir = [-1]`, `dufAtx0 = -1`), `fxs0 = 0` and
`maxSteps = 100` with the constant objective `cexF`: Armijo fails at every
trial, so after 31 iterations the loop reaches the bracket
`a = 0, b = 2^(-30), t = 2^(-31), i = 31`.  There the loop returns the
current `t` although `|b - a| = 2^(-30) ≈ 9.3e-10` is NOT below the
claimed `1e-10` threshold, the iteration count has not exceeded
`maxSteps`, and neither the Armijo nor the curvature condition holds at
`t` — because the source's stopping threshold `minInterval = 10e-10` is
`1e-9`, not `1e-10`. -/
theorem awLineSearch2_stop_counterexample :
    awLoop cexF cexGradf [JSNum.num 0] [JSNum.num (-1)] (JSNum.num 0)
        (JSNum.num (-1)) 100 (JSNum.num 0) (JSNum.num (1 / 1073741824))
        (JSNum.num (1 / 2147483648)) 31 = JSNum.num (1 / 2147483648) ∧
    jsLt (jsAbs (jsSub (JSNum.num (1 / 1073741824)) (JSNum.num 0)))
        (JSNum.num (1 / 10 ^ 10)) = false ∧
    ¬(31 > 100) ∧
    armijo cexF [JSNum.num 0] [JSNum.num (-1)] (JSNum.num 0) (JSNum.num (-1))
        (JSNum.num (1 / 2147483648)) = false ∧
    weakWolfe cexGradf [JSNum.num 0] [JSNum.num (-1)] (JSNum.num (-1))
        (JSNum.num (1 / 2147483648)) = false := by
  refine ⟨?_, by decide, by decide, by decide, by decide⟩
  rw [awLoop]
  rw [if_pos (by decide)]

/-- C4 (amended): for every input, `awLineSearch2` terminates (its loop is a
total function, by the measure `maxSteps + 1 - i`) and returns the current
trial step length `t` as soon as the bracket width `|b - a|` falls below
`1e-9` (the source's `minInterval = 10e-10`) or the iteration count exceeds
the maximum step count (default 10), even when neither the Armijo nor the
curvature condition holds at `t`. -/
theorem awLoop_stop_returns_t (f : List JSNum → JSNum)
    (gradf : List JSNum → List JSNum) (xs0 descentDir : List JSNum)
    (fxs0 dufAtx0 : JSNum) (maxSteps : Nat) (a b t : JSNum) (i : Nat)
    (h : jsLt (jsAbs (jsSub b a)) (.num (1 / 10 ^ 9)) = true ∨ i > maxSteps) :
    awLoop f gradf xs0 descentDir fxs0 dufAtx0 maxSteps a b t i = t := by
  have hs : shouldStop maxSteps i a b = true := by
    unfold shouldStop minInterval
    simp only [Bool.or_eq_true, decide_eq_true_eq]
    exact h
  rw [awLoop]
  rw [if_pos hs]

/-- A trivial constant objective for witnesses. -/
def wF : List JSNum → JSNum := fun _ => .num 0

/-- A trivial constant gradient for witnesses. -/
def wGradf : List JSNum → List JSNum := fun _ => [.num 0]

/-- Witness for C4: with a zero-width bracket the loop stops at once. -/
theorem awLoop_stop_returns_t_witness :
    (jsLt (jsAbs (jsSub (JSNum.num 0) (JSNum.num 0)))
        (JSNum.num (1 / 10 ^ 9)) = true ∨ 0 > 10) ∧
    awLoop wF wGradf [JSNum.num 0] [JSNum.num 0] (JSNum.num 0) (JSNum.num 0)
        10 (JSNum.num 0) (JSNum.num 0) (JSNum.num 7) 0 = JSNum.num 7 :=
  ⟨Or.inl (by decide),
   awLoop_stop_returns_t wF wGradf [JSNum.num 0] [JSNum.num 0] (JSNum.num 0)
     (JSNum.num 0) 10 (JSNum.num 0) (JSNum.num 0) (JSNum.num 7) 0
     (Or.inl (by decide))⟩

/-! ## C5 -/

/-- C5: the line search starts from bracket `[a, b] = [0, +∞)` and trial
`t = 1.0`; in every continuing iteration, with the Armijo condition
`f(xs0 + t·d) ≤ fxs0 + 0.001·t·dufAtx0` and the weak Wolfe curvature
condition `⟨d, ∇f(xs0 + t·d)⟩ ≥ 0.9·dufAtx0`: if Armijo fails at `t` the
upper bound becomes `b = t`, else if curvature fails the lower bound becomes
`a = t`, else both hold and `t` is returned; the next trial is the bisection
`(a + b) / 2` of the updated bracket when `b` is finite, and the expansion
`2a` otherwise. -/
theorem awLineSearch2_iteration (f : List JSNum → JSNum)
    (gradf : List JSNum → List JSNum) (xs0 descentDir gradfxs0 : List JSNum)
    (fxs0 dufAtx0 : JSNum) (maxSteps : Nat) (a b t : JSNum) (i : Nat)
    (h : shouldStop maxSteps i a b = false) :
    (awLineSearch2 xs0 f gradf gradfxs0 fxs0 maxSteps =
       awLoop f gradf xs0 (negv gradfxs0) fxs0
         (dot (negv gradfxs0) (gradf xs0)) maxSteps (.num 0) .posInf
         (.num 1) 0) ∧
    (armijo f xs0 descentDir fxs0 dufAtx0 t =
       jsLe (f (addv xs0 (scalev t descentDir)))
         (jsAdd fxs0 (jsMul (jsMul (.num (1 / 1000)) t) dufAtx0))) ∧
    (weakWolfe gradf xs0 descentDir dufAtx0 t =
       jsGe (dot descentDir (gradf (addv xs0 (scalev t descentDir))))
         (jsMul (.num (9 / 10)) dufAtx0)) ∧
    (armijo f xs0 descentDir fxs0 dufAtx0 t = false →
       awLoop f gradf xs0 descentDir fxs0 dufAtx0 maxSteps a b t i =
         awLoop f gradf xs0 descentDir fxs0 dufAtx0 maxSteps a t
           (if jsLt t .posInf then jsDiv (jsAdd a t) (.num 2)
            else jsMul (.num 2) a) (i + 1)) ∧
    (armijo f xs0 descentDir fxs0 dufAtx0 t = true →
     weakWolfe gradf xs0 descentDir dufAtx0 t = false →
       awLoop f gradf xs0 descentDir fxs0 dufAtx0 maxSteps a b t i =
         awLoop f gradf xs0 descentDir fxs0 dufAtx0 maxSteps t b
           (if jsLt b .posInf then jsDiv (jsAdd t b) (.num 2)
            else jsMul (.num 2) t) (i + 1)) ∧
    (armijo f xs0 descentDir fxs0 dufAtx0 t = true →
     weakWolfe gradf xs0 descentDir dufAtx0 t = true →
       awLoop f gradf xs0 descentDir fxs0 dufAtx0 maxSteps a b t i = t) := by
  have hns : ¬(shouldStop maxSteps i a b = true) := by simp [h]
  refine ⟨rfl, rfl, rfl, fun ha => ?_, fun ha hw => ?_, fun ha hw => ?_⟩
  · conv_lhs => rw [awLoop]
    rw [if_neg hns]
    dsimp only
    rw [if_pos ha]
  · conv_lhs => rw [awLoop]
    rw [if_neg hns]
    dsimp only
    rw [if_neg (by simp [ha]), if_pos hw]
  · conv_lhs => rw [awLoop]
    rw [if_neg hns]
    dsimp only
    rw [if_neg (by simp [ha]), if_neg (by simp [hw])]

/-- Witness for C5 at the initial loop state of a default run. -/
theorem awLineSearch2_iteration_witness :
    shouldStop 10 0 (JSNum.num 0) JSNum.posInf = false ∧
    ((awLineSearch2 [JSNum.num 0] wF wGradf [JSNum.num 0] (JSNum.num 0) 10 =
       awLoop wF wGradf [JSNum.num 0] (negv [JSNum.num 0]) (JSNum.num 0)
         (dot (negv [JSNum.num 0]) (wGradf [JSNum.num 0])) 10 (.num 0)
         .posInf (.num 1) 0) ∧
     (armijo wF [JSNum.num 0] [JSNum.num 0] (JSNum.num 0) (JSNum.num 0)
         (JSNum.num 1) =
       jsLe (wF (addv [JSNum.num 0] (scalev (JSNum.num 1) [JSNum.num 0])))
         (jsAdd (JSNum.num 0)
           (jsMul (jsMul (.num (1 / 1000)) (JSNum.num 1)) (JSNum.num 0)))) ∧
     (weakWolfe wGradf [JSNum.num 0] [JSNum.num 0] (JSNum.num 0)
         (JSNum.num 1) =
       jsGe
         (dot [JSNum.num 0]
           (wGradf (addv [JSNum.num 0] (scalev (JSNum.num 1) [JSNum.num 0]))))
         (jsMul (.num (9 / 10)) (JSNum.num 0))) ∧
     (armijo wF [JSNum.num 0] [JSNum.num 0] (JSNum.num 0) (JSNum.num 0)
         (JSNum.num 1) = false →
       awLoop wF wGradf [JSNum.num 0] [JSNum.num 0] (JSNum.num 0)
           (JSNum.num 0) 10 (JSNum.num 0) JSNum.posInf (JSNum.num 1) 0 =
         awLoop wF wGradf [JSNum.num 0] [JSNum.num 0] (JSNum.num 0)
           (JSNum.num 0) 10 (JSNum.num 0) (JSNum.num 1)
           (if jsLt (JSNum.num 1) .posInf then
              jsDiv (jsAdd (JSNum.num 0) (JSNum.num 1)) (.num 2)
            else jsMul (.num 2) (JSNum.num 0)) (0 + 1)) ∧
     (armijo wF [JSNum.num 0] [JSNum.num 0] (JSNum.num 0) (JSNum.num 0)
         (JSNum.num 1) = true →
      weakWolfe wGradf [JSNum.num 0] [JSNum.num 0] (JSNum.num 0)
         (JSNum.num 1) = false →
       awLoop wF wGradf [JSNum.num 0] [JSNum.num 0] (JSNum.num 0)
           (JSNum.num 0) 10 (JSNum.num 0) JSNum.posInf (JSNum.num 1) 0 =
         awLoop wF wGradf [JSNum.num 0] [JSNum.num 0] (JSNum.num 0)
           (JSNum.num 0) 10 (JSNum.num 1) JSNum.posInf
           (if jsLt JSNum.posInf .posInf then
              jsDiv (jsAdd (JSNum.num 1) JSNum.posInf) (.num 2)
            else jsMul (.num 2) (JSNum.num 1)) (0 + 1)) ∧
     (armijo wF [JSNum.num 0] [JSNum.num 0] (JSNum.num 0) (JSNum.num 0)
         (JSNum.num 1) = true →
      weakWolfe wGradf [JSNum.num 0] [JSNum.num 0] (JSNum.num 0)
         (JSNum.num 1) = true →
       awLoop wF wGradf [JSNum.num 0] [JSNum.num 0] (JSNum.num 0)
           (JSNum.num 0) 10 (JSNum.num 0) JSNum.posInf (JSNum.num 1) 0 =
         JSNum.num 1)) :=
  ⟨by decide,
   awLineSearch2_iteration wF wGradf [JSNum.num 0] [JSNum.num 0]
     [JSNum.num 0] (JSNum.num 0) (JSNum.num 0) 10 (JSNum.num 0) JSNum.posInf
     (JSNum.num 1) 0 (by decide)⟩

/-! ## C3 -/

/-- C3 counterexample.  On the non-first call with current state `[1]`,
current gradient `[0]`, last state `[0]`, last gradient `[0]` and memory
size 1, the two-loop result is `r = [0]`, so the descent-direction value
`-(r · currentGradient)` is `0`: the claimed acceptance condition
`-(r · currentGradient) < 0` is FALSE, yet the result is accepted — the
stored history is NOT discarded (the updated memory has `s_list = [[1]]`,
`y_list = [[0]]` and step counter 2, not the fresh-phase values), because
the source only resets when the check is strictly greater than `0`. -/
theorem lbfgs_descent_check_counterexample :
    jsLt (jsMul (JSNum.num (-1))
        (dotVec
          (lbfgsInner [JSNum.num 0] [[JSNum.num 1]] [[JSNum.num 0]])
          [JSNum.num 0]))
      (JSNum.num 0) = false ∧
    lbfgs [JSNum.num 1] [JSNum.num 0]
        { lastState := some [JSNum.num 0], lastGrad := some [JSNum.num 0],
          s_list := [], y_list := [], numUnconstrSteps := 1, memSize := 1 } =
      .ok { gradfxsPreconditioned := [JSNum.num 0]
            updatedLbfgsInfo :=
              { lastState := some [JSNum.num 1],
                lastGrad := some [JSNum.num 0],
                s_list := [[JSNum.num 1]], y_list := [[JSNum.num 0]],
                numUnconstrSteps := 2, memSize := 1 } } :=
  ⟨by decide, by rfl⟩

/-- C3 (amended): on every non-first call of the L-BFGS estimator (step
counter nonzero, last state and last gradient present), the two-loop result
`r` is rejected exactly when `-(r · currentGradient) > 0` — so a check value
of `0` (or `NaN`) is accepted, not only strictly negative ones; on
rejection all stored s/y history is discarded, the memory is reset to the
fresh-phase state (last state/gradient set to the current ones, empty
history, step counter 1, exactly as a fresh first call would leave it) and
the raw gradient is returned for this step; on acceptance `r` is returned
with the truncated history stored; and in every branch the stored last
state and last gradient are updated to the current state and gradient. -/
theorem lbfgs_subsequent_call (xs gradfxs : List JSNum) (info : LbfgsParams)
    (x_km1 grad_fx_km1 : List JSNum)
    (h0 : info.numUnconstrSteps ≠ 0)
    (h1 : info.lastState = some x_km1)
    (h2 : info.lastGrad = some grad_fx_km1) :
    (jsGt (jsMul (.num (-1)) (dotVec
          (lbfgsInner gradfxs
            ((subv xs x_km1 :: info.s_list).take info.memSize)
            ((subv gradfxs grad_fx_km1 :: info.y_list).take info.memSize))
          gradfxs)) (.num 0) = true →
       lbfgs xs gradfxs info = .ok
         { gradfxsPreconditioned := gradfxs
           updatedLbfgsInfo :=
             { info with
               lastState := some xs
               lastGrad := some gradfxs
               s_list := []
               y_list := []
               numUnconstrSteps := 1 } }) ∧
    (jsGt (jsMul (.num (-1)) (dotVec
          (lbfgsInner gradfxs
            ((subv xs x_km1 :: info.s_list).take info.memSize)
            ((subv gradfxs grad_fx_km1 :: info.y_list).take info.memSize))
          gradfxs)) (.num 0) = false →
       lbfgs xs gradfxs info = .ok
         { gradfxsPreconditioned :=
             lbfgsInner gradfxs
               ((subv xs x_km1 :: info.s_list).take info.memSize)
               ((subv gradfxs grad_fx_km1 :: info.y_list).take info.memSize)
           updatedLbfgsInfo :=
             { info with
               lastState := some xs
               lastGrad := some gradfxs
               s_list := (subv xs x_km1 :: info.s_list).take info.memSize
               y_list :=
                 (subv gradfxs grad_fx_km1 :: info.y_list).take info.memSize
               numUnconstrSteps := info.numUnconstrSteps + 1 } }) := by
  obtain ⟨ls, lg, sl, yl, k, m⟩ := info
  dsimp only at h0 h1 h2 ⊢
  subst h1
  subst h2
  constructor <;> intro hc <;>
  · unfold lbfgs
    dsimp only
    rw [if_neg h0]
    dsimp only [colVec, vecList]
    rw [hc]
    rfl

/-- Concrete memory used by the C3 witness. -/
def wInfo : LbfgsParams :=
  { lastState := some [.num 0], lastGrad := some [.num 1], s_list := [],
    y_list := [], numUnconstrSteps := 1, memSize := 1 }

/-- Witness for C3: a non-first call with current state `[2]` and gradient
`[3]`; the descent check is strictly negative, so the preconditioned result
is accepted and the truncated history is stored. -/
theorem lbfgs_subsequent_call_witness :
    wInfo.numUnconstrSteps ≠ 0 ∧
    wInfo.lastState = some [JSNum.num 0] ∧
    wInfo.lastGrad = some [JSNum.num 1] ∧
    jsGt (jsMul (JSNum.num (-1)) (dotVec
        (lbfgsInner [JSNum.num 3]
          ((subv [JSNum.num 2] [JSNum.num 0] :: wInfo.s_list).take
            wInfo.memSize)
          ((subv [JSNum.num 3] [JSNum.num 1] :: wInfo.y_list).take
            wInfo.memSize))
        [JSNum.num 3])) (JSNum.num 0) = false ∧
    lbfgs [JSNum.num 2] [JSNum.num 3] wInfo = .ok
      { gradfxsPreconditioned :=
          lbfgsInner [JSNum.num 3]
            ((subv [JSNum.num 2] [JSNum.num 0] :: wInfo.s_list).take
              wInfo.memSize)
            ((subv [JSNum.num 3] [JSNum.num 1] :: wInfo.y_list).take
              wInfo.memSize)
        updatedLbfgsInfo :=
          { wInfo with
            lastState := some [JSNum.num 2]
            lastGrad := some [JSNum.num 3]
            s_list :=
              (subv [JSNum.num 2] [JSNum.num 0] :: wInfo.s_list).take
                wInfo.memSize
            y_list :=
              (subv [JSNum.num 3] [JSNum.num 1] :: wInfo.y_list).take
                wInfo.memSize
            numUnconstrSteps := wInfo.numUnconstrSteps + 1 } } :=
  ⟨by decide, rfl, rfl, by decide,
   (lbfgs_subsequent_call [JSNum.num 2] [JSNum.num 3] wInfo [JSNum.num 0]
       [JSNum.num 1] (by decide) rfl rfl).2 (by decide)⟩

/-! ## C1 -/

/-- C1: when `step` is called on a state whose status is
`UnconstrainedConverged`, it transitions to `EPConverged` exactly when the
outer round counter exceeds 1 and either the norm of
`lastUOstate - lastEPstate` or `|lastUOenergy - lastEPenergy|` is below
`1e-3`; otherwise it multiplies the penalty weight by the growth factor 10,
increments `EPround`, resets `UOround` to 0, rebinds
`currObjective`/`currGradient` to the new weight, and sets the status back
to `UnconstrainedRunning`; in both branches the just-finished unconstrained
state and energy are recorded as the new baseline
`lastEPstate`/`lastEPenergy` (and the variable vector is untouched). -/
theorem step_unconstrainedConverged_transition (state : State) (steps : Nat)
    (evaluate : Bool) (s1 : State)
    (h : state.params.optStatus = .UnconstrainedConverged)
    (hstep : step state steps evaluate = .ok s1) :
    ((1 < state.params.EPround ∧
        (jsLt (normList (subv state.params.lastUOstate
            state.params.lastEPstate)) (.num (1 / 1000)) = true ∨
         jsLt (jsAbs (jsSub state.params.lastUOenergy
            state.params.lastEPenergy)) (.num (1 / 1000)) = true)) →
       s1.params.optStatus = .EPConverged ∧
       s1.params.weight = state.params.weight ∧
       s1.params.EPround = state.params.EPround ∧
       s1.params.UOround = state.params.UOround ∧
       s1.params.currObjective = state.params.currObjective ∧
       s1.params.currGradient = state.params.currGradient) ∧
    (¬(1 < state.params.EPround ∧
        (jsLt (normList (subv state.params.lastUOstate
            state.params.lastEPstate)) (.num (1 / 1000)) = true ∨
         jsLt (jsAbs (jsSub state.params.lastUOenergy
            state.params.lastEPenergy)) (.num (1 / 1000)) = true)) →
       s1.params.optStatus = .UnconstrainedRunning ∧
       s1.params.weight = jsMul (.num 10) state.params.weight ∧
       s1.params.EPround = state.params.EPround + 1 ∧
       s1.params.UOround = 0 ∧
       s1.params.currObjective =
         state.params.objective (jsMul (.num 10) state.params.weight) ∧
       s1.params.currGradient =
         state.params.gradient (jsMul (.num 10) state.params.weight)) ∧
    s1.params.lastEPstate = state.params.lastUOstate ∧
    s1.params.lastEPenergy = state.params.lastUOenergy ∧
    s1.varyingValues = state.varyingValues := by
  have hiff : (1 < state.params.EPround ∧
      epConverged2 state.params.lastEPstate state.params.lastUOstate
        state.params.lastEPenergy state.params.lastUOenergy = true) ↔
      (1 < state.params.EPround ∧
        (jsLt (normList (subv state.params.lastUOstate
            state.params.lastEPstate)) (.num (1 / 1000)) = true ∨
         jsLt (jsAbs (jsSub state.params.lastUOenergy
            state.params.lastEPenergy)) (.num (1 / 1000)) = true)) := by
    unfold epConverged2 epStop
    rw [Bool.or_eq_true]
  unfold step at hstep
  rw [h] at hstep
  dsimp only at hstep
  by_cases hc : (1 < state.params.EPround ∧
      (jsLt (normList (subv state.params.lastUOstate
          state.params.lastEPstate)) (.num (1 / 1000)) = true ∨
       jsLt (jsAbs (jsSub state.params.lastUOenergy
          state.params.lastEPenergy)) (.num (1 / 1000)) = true))
  · rw [if_pos (hiff.mpr hc)] at hstep
    obtain rfl : _ = s1 := by injection hstep
    cases evaluate <;>
      exact ⟨fun _ => ⟨rfl, rfl, rfl, rfl, rfl, rfl⟩,
             fun hn => absurd hc hn, rfl, rfl, rfl⟩
  · rw [if_neg (fun hx => hc (hiff.mp hx))] at hstep
    obtain rfl : _ = s1 := by injection hstep
    cases evaluate <;>
      exact ⟨fun hp => absurd hp hc,
             fun _ => ⟨rfl, rfl, rfl, rfl, rfl, rfl⟩, rfl, rfl, rfl⟩

/-- A concrete state in status `UnconstrainedConverged` whose outer
convergence test passes (`EPround = 2`, unchanged state and energy). -/
def convState : State :=
  { varyingValues := [.num 4]
    params :=
      { weight := .num 1000
        UOround := 3
        EPround := 2
        optStatus := .UnconstrainedConverged
        lbfgsInfo := defaultLbfgsParams
        lastUOstate := [.num 4]
        lastUOenergy := .num 5
        lastEPstate := [.num 4]
        lastEPenergy := .num 5
        lastGradient := [.num 0]
        lastGradientPreconditioned := [.num 0]
        objective := fun _ _ => .num 5
        gradient := fun _ xs => xs.map (fun _ => .num 0)
        currObjective := fun _ => .num 5
        currGradient := fun xs => xs.map (fun _ => .num 0) } }

/-- Witness for C1 at `convState`: the outer test passes and the status
moves to `EPConverged` with the baseline recorded. -/
theorem step_unconstrainedConverged_transition_witness :
    convState.params.optStatus = .UnconstrainedConverged ∧
    (step convState 7 true).map
        (fun s => (s.params.optStatus, s.params.weight, s.params.lastEPstate,
          s.params.lastEPenergy, s.varyingValues)) =
      .ok (.EPConverged, .num 1000, [.num 4], .num 5, [.num 4]) := by
  constructor
  · rfl
  · have h2 : step convState 7 true =
        .ok { varyingValues := [.num 4]
              params := { convState.params with
                optStatus := .EPConverged
                lastEPstate := [.num 4]
                lastEPenergy := .num 5 } } := by
      unfold step
      dsimp only
      rw [if_pos (by constructor <;> decide)]
      rfl
    have h3 := step_unconstrainedConverged_transition convState 7 true _ rfl h2
    rw [h2]
    obtain ⟨hl, -, -, -, -⟩ := h3
    obtain ⟨ha, -, -, -, -, -⟩ := hl ⟨by decide, Or.inl (by decide)⟩
    rw [← ha]
    rfl

/-! ## C8 -/

/-- If `0 ≤ w` in the JS order then `w ≤ w`. -/
theorem jsLe_self_of_nonneg (w : JSNum) (h : jsLe (.num 0) w = true) :
    jsLe w w = true := by
  cases w <;> simp_all [jsLe]

/-- If `0 ≤ w` in the JS order then `w ≤ 10 * w`. -/
theorem jsLe_mul_growth (w : JSNum) (h : jsLe (.num 0) w = true) :
    jsLe w (jsMul (.num 10) w) = true := by
  cases w with
  | num a =>
    simp only [jsLe, decide_eq_true_eq] at h
    simp only [jsMul, jsLe, decide_eq_true_eq]
    linarith
  | posInf => norm_num [jsMul, jsLe]
  | negInf => simp [jsLe] at h
  | nan => simp [jsLe] at h

/-- C8: away from `NewIter` re-initialization, one `step` call either leaves
the penalty weight unchanged or multiplies it by the fixed growth factor 10;
in particular (the weight being non-negative, as every weight reachable from
initialization is) it never decreases across `step` calls within a run. -/
theorem step_weight_monotone (state : State) (steps : Nat) (evaluate : Bool)
    (s1 : State)
    (hni : state.params.optStatus ≠ .NewIter)
    (hw : jsLe (.num 0) state.params.weight = true)
    (hstep : step state steps evaluate = .ok s1) :
    (s1.params.weight = state.params.weight ∨
     s1.params.weight = jsMul (.num 10) state.params.weight) ∧
    jsLe state.params.weight s1.params.weight = true := by
  cases hs : state.params.optStatus with
  | NewIter => exact absurd hs hni
  | UnconstrainedRunning =>
    unfold step at hstep
    rw [hs] at hstep
    dsimp only at hstep
    rcases hm : minimize state.varyingValues state.params.currObjective
        state.params.currGradient state.params.lbfgsInfo steps with e | res
    · rw [hm] at hstep
      exact absurd hstep (by simp)
    · rw [hm] at hstep
      dsimp only at hstep
      split at hstep <;> split at hstep <;>
      · obtain rfl : _ = s1 := by injection hstep
        first
        | exact ⟨Or.inl rfl, jsLe_self_of_nonneg _ hw⟩
        | cases evaluate <;> exact ⟨Or.inl rfl, jsLe_self_of_nonneg _ hw⟩
  | UnconstrainedConverged =>
    unfold step at hstep
    rw [hs] at hstep
    dsimp only at hstep
    split at hstep
    · obtain rfl : _ = s1 := by injection hstep
      cases evaluate <;> exact ⟨Or.inl rfl, jsLe_self_of_nonneg _ hw⟩
    · obtain rfl : _ = s1 := by injection hstep
      cases evaluate <;>
        exact ⟨Or.inr rfl, jsLe_mul_growth _ hw⟩
  | EPConverged =>
    unfold step at hstep
    rw [hs] at hstep
    obtain rfl : state = s1 := by injection hstep
    exact ⟨Or.inl rfl, jsLe_self_of_nonneg _ hw⟩
  | Error =>
    unfold step at hstep
    rw [hs] at hstep
    obtain rfl : state = s1 := by injection hstep
    exact ⟨Or.inl rfl, jsLe_self_of_nonneg _ hw⟩

/-- A concrete state in the terminal `Error` status with weight 2. -/
def errState : State :=
  { varyingValues := [.num 1]
    params :=
      { weight := .num 2
        UOround := 1
        EPround := 1
        optStatus := .Error
        lbfgsInfo := defaultLbfgsParams
        lastUOstate := [.num 1]
        lastUOenergy := .num 0
        lastEPstate := [.num 1]
        lastEPenergy := .num 0
        lastGradient := [.num 0]
        lastGradientPreconditioned := [.num 0]
        objective := fun _ _ => .num 0
        gradient := fun _ xs => xs.map (fun _ => .num 0)
        currObjective := fun _ => .num 0
        currGradient := fun xs => xs.map (fun _ => .num 0) } }

/-- Witness for C8 at a concrete state. -/
theorem step_weight_monotone_witness :
    errState.params.optStatus ≠ .NewIter ∧
    jsLe (.num 0) errState.params.weight = true ∧
    ((errState.params.weight = errState.params.weight ∨
      errState.params.weight = jsMul (.num 10) errState.params.weight) ∧
     jsLe errState.params.weight errState.params.weight = true) :=
  ⟨by decide, by decide,
   step_weight_monotone errState 4 true errState (by decide) (by decide) rfl⟩

/-! ## C10 -/

/-- C10: for every state in status `UnconstrainedRunning`, a `step` with an
inner-iteration budget of 0 leaves the variable vector unchanged, records a
last unconstrained energy of 0, zero last gradients, and — the gradient-norm
metric of the empty run being 0, below the inner tolerance — transitions the
status to `UnconstrainedConverged`, regardless of the actual objective: the
second conjunct shows `minimize` returns energy 0 and metric 0 for every
objective `f` and gradient `gradf`, evaluating neither. -/
theorem step_zero_budget (state : State) (evaluate : Bool)
    (h : state.params.optStatus = .UnconstrainedRunning) :
    step state 0 evaluate = .ok
      { varyingValues := state.varyingValues
        params := { state.params with
          optStatus := .UnconstrainedConverged
          lastUOstate := state.varyingValues
          lastUOenergy := .num 0
          UOround := state.params.UOround + 1
          lbfgsInfo := defaultLbfgsParams
          lastGradient := repeatList state.varyingValues.length (.num 0)
          lastGradientPreconditioned :=
            repeatList state.varyingValues.length (.num 0) } } ∧
    ∀ (f : List JSNum → JSNum) (gradf : List JSNum → List JSNum),
      minimize state.varyingValues f gradf state.params.lbfgsInfo 0 = .ok
        { xs := state.varyingValues
          energyVal := .num 0
          normGrad := .num 0
          newLbfgsInfo := state.params.lbfgsInfo
          gradient := repeatList state.varyingValues.length (.num 0)
          gradientPreconditioned :=
            repeatList state.varyingValues.length (.num 0)
          failed := false } := by
  refine ⟨?_, fun f gradf => rfl⟩
  unfold step
  rw [h]
  cases evaluate <;>
    norm_num [minimize, minimizeLoop, unconstrainedConverged2, uoStop, jsLt,
      finishStep]

/-- A concrete state in status `UnconstrainedRunning`. -/
def runState : State :=
  { varyingValues := [.num 3, .num 6]
    params :=
      { weight := .num 10
        UOround := 2
        EPround := 1
        optStatus := .UnconstrainedRunning
        lbfgsInfo := defaultLbfgsParams
        lastUOstate := [.num 3, .num 6]
        lastUOenergy := .num 9
        lastEPstate := [.num 3, .num 6]
        lastEPenergy := .num 9
        lastGradient := [.num 0, .num 0]
        lastGradientPreconditioned := [.num 0, .num 0]
        objective := fun _ _ => .num 9
        gradient := fun _ xs => xs.map (fun _ => .num 0)
        currObjective := fun _ => .num 9
        currGradient := fun xs => xs.map (fun _ => .num 0) } }

/-- Witness for C10 at a concrete running state: the energy there is 9, yet
the zero-budget step reports last energy 0 and converges. -/
theorem step_zero_budget_witness :
    runState.params.optStatus = .UnconstrainedRunning ∧
    step runState 0 true = .ok
      { varyingValues := runState.varyingValues
        params := { runState.params with
          optStatus := .UnconstrainedConverged
          lastUOstate := runState.varyingValues
          lastUOenergy := .num 0
          UOround := runState.params.UOround + 1
          lbfgsInfo := defaultLbfgsParams
          lastGradient := repeatList runState.varyingValues.length (.num 0)
          lastGradientPreconditioned :=
            repeatList runState.varyingValues.length (.num 0) } } :=
  ⟨rfl, (step_zero_budget runState true rfl).1⟩

/-! ## C2 -/

/-- A compiled state whose variable vector holds `NaN` but whose objective
does not depend on the variables (energy constantly 0, gradient constantly
`[0]`), in status `UnconstrainedRunning`. -/
def nanState : State :=
  { varyingValues := [.nan]
    params :=
      { weight := .num 1
        UOround := 0
        EPround := 0
        optStatus := .UnconstrainedRunning
        lbfgsInfo := defaultLbfgsParams
        lastUOstate := [.num 0]
        lastUOenergy := .num 0
        lastEPstate := [.num 0]
        lastEPenergy := .num 0
        lastGradient := [.num 0]
        lastGradientPreconditioned := [.num 0]
        objective := fun _ _ => .num 0
        gradient := fun _ _ => [.num 0]
        currObjective := fun _ => .num 0
        currGradient := fun _ => [.num 0] } }

/-- C2 (code bug): a `step` on a state with a variable set to `NaN` does NOT
return status `Error` — the `containsNaN` guard that was meant to catch it
iterates over index strings and never fires, the energy and gradient of this
state are finite (the objective ignores the variable), the zero gradient
even passes the convergence test before the `NaN` check runs — so the
returned state is `UnconstrainedConverged` with the `NaN` still in the
variable vector, silently passed through. -/
theorem step_nan_passthrough :
    (step nanState 1 true).map
        (fun s => (s.varyingValues, s.params.optStatus)) =
      .ok ([JSNum.nan], OptStatus.UnconstrainedConverged) := by
  rfl

end Penrose
